import Mathlib

/-!
Shallow embedding of the address-book single-page application.

Sources embedded:
  - src/src/App.tsx: the submit handlers `handleAddressSubmit` and
    `handlePersonSubmit`, the clear-all button handler, and the form state
    wired through the `useForm` hook.
  - src/unnamed/part_001: the generic `useForm` hook (`handleChange`, `reset`).

React state updates are embedded as explicit state-passing: each handler is a
pure function from the application state (plus, for the search handler, the
outcome of the single fetch) to the next application state.  The `console.error`
diagnostic sink is embedded as an append-only list of diagnostic strings.
-/

/-! ## Generic form hook (src/unnamed/part_001) -/

/-- A value stored in the generic form mapping: the string `value` of a text
control, or the boolean `checked` of a checkbox-style control. -/
inductive FieldValue where
  | str (s : String)
  | chk (b : Bool)
deriving DecidableEq, Repr

/-- The `e.target` data read by `handleChange` in the `useForm` hook:
`const { name, type, value, checked } = e.target`. -/
structure FormChangeEvent where
  name : String
  type : String
  value : String
  checked : Bool
deriving DecidableEq, Repr

/-- State of one `useForm(initialValues)` hook instance: the captured initial
snapshot and the current `values` mapping. -/
structure UseFormState (T : Type) where
  initialValues : T
  values : T

/-- The value `handleChange` stores for the changed field:
`type === 'checkbox' ? checked : value`. -/
def eventValue (e : FormChangeEvent) : FieldValue :=
  if e.type = "checkbox" then .chk e.checked else .str e.value

/-- `handleChange` from the `useForm` hook: the spread
`setValues(prev => ({ ...prev, [name]: type === 'checkbox' ? checked : value }))`
is the pointwise update of the mapping at `e.name`. -/
def handleChange (e : FormChangeEvent) (st : UseFormState (String → FieldValue)) :
    UseFormState (String → FieldValue) :=
  { st with values := fun n => if n = e.name then eventValue e else st.values n }

/-- `reset` from the `useForm` hook: `setValues(initialValues)`. -/
def reset (st : UseFormState T) : UseFormState T :=
  { st with values := st.initialValues }

/-! ## Data model (spec section 3 and src/src/App.tsx) -/

/-- A raw address record returned by the lookup API (`RawAddressModel`): at
minimum street, city, postcode fields and an identifier. -/
structure RawAddressModel where
  id : String
  street : String
  city : String
  postcode : String
deriving DecidableEq, Repr

/-- The internal address shape used by the UI: identifier, street, house
number, city, postcode. -/
structure Address where
  id : String
  street : String
  houseNumber : String
  city : String
  postcode : String
deriving DecidableEq, Repr

/-- An address-book entry: the union of the Address fields and the Person
fields, as built by `addAddress({ ...foundAddress, firstName, lastName })`. -/
structure AddressBookEntry where
  id : String
  street : String
  houseNumber : String
  city : String
  postcode : String
  firstName : String
  lastName : String
deriving DecidableEq, Repr

/-- Modelled from the spec: `transformAddress` lives in
src/core/models/address, which is not under src/.  Spec section 4.2: a pure
function whose input is one RawAddressRecord and a house-number string and
whose output is one Address with the house number injected alongside the
fields copied from the raw record. -/
def transformAddress (r : RawAddressModel) (houseNumber : String) : Address :=
  { id := r.id
    street := r.street
    houseNumber := houseNumber
    city := r.city
    postcode := r.postcode }

/-- JavaScript `String.prototype.trim` as called on the form fields, embedded
on the character list: whitespace characters dropped from both ends. -/
def jsTrim (s : String) : String :=
  ⟨((s.data.dropWhile Char.isWhitespace).reverse.dropWhile Char.isWhitespace).reverse⟩

/-- The spread `{ ...foundAddress, firstName, lastName }` building the entry
passed to `addAddress` in `handlePersonSubmit`. -/
def mkEntry (a : Address) (firstName lastName : String) : AddressBookEntry :=
  { id := a.id
    street := a.street
    houseNumber := a.houseNumber
    city := a.city
    postcode := a.postcode
    firstName := firstName
    lastName := lastName }

/-- Modelled from the spec: `addAddress` comes from the `useAddressBook` hook
(src/hooks/useAddressBook), which is not under src/.  Spec section 4.6: the
single operation append(entry) adds one AddressBookEntry to the end of the
ordered sequence. -/
def addAddress (book : List AddressBookEntry) (entry : AddressBookEntry) :
    List AddressBookEntry :=
  book ++ [entry]

/-! ## Application state (src/src/App.tsx) -/

/-- The five text fields App passes to `useForm`: postCode, houseNumber,
firstName, lastName, selectedAddress. -/
structure AppFormValues where
  postCode : String
  houseNumber : String
  firstName : String
  lastName : String
  selectedAddress : String
deriving DecidableEq, Repr

/-- The initial snapshot App hands to `useForm`: every field the empty
string. -/
def initialFormValues : AppFormValues :=
  { postCode := ""
    houseNumber := ""
    firstName := ""
    lastName := ""
    selectedAddress := "" }

/-- The whole App component state: the form hook state (initial snapshot plus
current values), the `error` and `addresses` React states, the Redux
address-book store, and the diagnostic sink fed by `console.error`. -/
structure AppState where
  formInit : AppFormValues
  form : AppFormValues
  error : Option String
  addresses : List Address
  addressBook : List AddressBookEntry
  diagnostics : List String
deriving DecidableEq, Repr

/-- The outcome of the single fetch issued by `handleAddressSubmit`: a parsed
2xx JSON body carrying the `details` array, or a request-level failure
(non-2xx status, network error, malformed JSON) carrying the underlying
error text. -/
inductive FetchOutcome where
  | ok (details : List RawAddressModel)
  | fail (message : String)
deriving DecidableEq, Repr

/-- `handleAddressSubmit` from src/src/App.tsx, with the awaited fetch made
explicit: the returned Bool records whether the network call was issued.
The handler first clears `addresses` and `error`, then validates the trimmed
postcode and house number, then (only if validation passes) performs the
fetch; a parsed response maps `details` through the transformer with the
submitted house number, a failure logs the underlying error to the
diagnostic sink and sets the generic user-facing message. -/
def handleAddressSubmit (s : AppState) (outcome : FetchOutcome) :
    AppState × Bool :=
  let s1 : AppState := { s with addresses := [], error := none }
  if jsTrim s.form.postCode = "" ∨ jsTrim s.form.houseNumber = "" then
    ({ s1 with error := some "Post code and house number are mandatory!" }, false)
  else
    match outcome with
    | .ok details =>
        ({ s1 with addresses := details.map (fun r => transformAddress r s.form.houseNumber) },
          true)
    | .fail m =>
        ({ s1 with
            error := some "Failed to fetch addresses. Please try again."
            diagnostics := s1.diagnostics ++ [m] },
          true)

/-- `handlePersonSubmit` from src/src/App.tsx: fail-fast validation of the
trimmed names, then of the selection and result list, then the exact-id
lookup; on success the found address plus the names is appended to the
address-book store. -/
def handlePersonSubmit (s : AppState) : AppState :=
  if jsTrim s.form.firstName = "" ∨ jsTrim s.form.lastName = "" then
    { s with error := some "First name and last name fields mandatory!" }
  else if s.form.selectedAddress = "" ∨ s.addresses = [] then
    { s with error := some "No address selected, try to select an address or find one if you haven\x27t" }
  else
    match s.addresses.find? (fun a => a.id == s.form.selectedAddress) with
    | none => { s with error := some "Selected address not found" }
    | some a =>
        { s with addressBook := addAddress s.addressBook (mkEntry a s.form.firstName s.form.lastName) }

/-- The `reset()` call inside the clear-all button handler: restores the form
mapping to the initial snapshot captured by `useForm`. -/
def resetFormState (s : AppState) : AppState :=
  { s with form := s.formInit }

/-- The `setAddresses([])` call inside the clear-all button handler. -/
def setAddressesEmpty (s : AppState) : AppState :=
  { s with addresses := [] }

/-- The `setError(undefined)` call inside the clear-all button handler. -/
def setErrorNone (s : AppState) : AppState :=
  { s with error := none }

/-- The onClick handler of the "Clear all fields" button in src/src/App.tsx:
`reset(); setAddresses([]); setError(undefined);` — three updates applied in
one event handler, hence one atomic UI update under React batching. -/
def clearAllFields (s : AppState) : AppState :=
  setErrorNone (setAddressesEmpty (resetFormState s))

/-! ## Helper lemmas shared by the claim theorems -/

/-- Unfolding of `handleAddressSubmit` when a required field is blank after
trimming: no fetch, mandatory-fields message, results cleared. -/
theorem handleAddressSubmit_invalid (s : AppState) (o : FetchOutcome)
    (h : jsTrim s.form.postCode = "" ∨ jsTrim s.form.houseNumber = "") :
    handleAddressSubmit s o
      = ({ s with addresses := [], error := some "Post code and house number are mandatory!" },
          false) := by
  simp only [handleAddressSubmit, if_pos h]

/-- Unfolding of `handleAddressSubmit` on a parsed 2xx response. -/
theorem handleAddressSubmit_ok (s : AppState) (details : List RawAddressModel)
    (hp : jsTrim s.form.postCode ≠ "") (hh : jsTrim s.form.houseNumber ≠ "") :
    handleAddressSubmit s (.ok details)
      = ({ s with
            addresses := details.map (fun r => transformAddress r s.form.houseNumber),
            error := none },
          true) := by
  have h : ¬(jsTrim s.form.postCode = "" ∨ jsTrim s.form.houseNumber = "") := by
    simp [hp, hh]
  simp only [handleAddressSubmit, if_neg h]

/-- Unfolding of `handleAddressSubmit` on a request-level failure. -/
theorem handleAddressSubmit_failed (s : AppState) (m : String)
    (hp : jsTrim s.form.postCode ≠ "") (hh : jsTrim s.form.houseNumber ≠ "") :
    handleAddressSubmit s (.fail m)
      = ({ s with
            addresses := [],
            error := some "Failed to fetch addresses. Please try again.",
            diagnostics := s.diagnostics ++ [m] },
          true) := by
  have h : ¬(jsTrim s.form.postCode = "" ∨ jsTrim s.form.houseNumber = "") := by
    simp [hp, hh]
  simp only [handleAddressSubmit, if_neg h]

/-- Unfolding of `handlePersonSubmit` when the selected identifier matches no
entry of the result list. -/
theorem handlePersonSubmit_not_found (s : AppState)
    (h1 : jsTrim s.form.firstName ≠ "") (h2 : jsTrim s.form.lastName ≠ "")
    (h3 : s.form.selectedAddress ≠ "") (h4 : s.addresses ≠ [])
    (h5 : ∀ a ∈ s.addresses, a.id ≠ s.form.selectedAddress) :
    handlePersonSubmit s = { s with error := some "Selected address not found" } := by
  have hn1 : ¬(jsTrim s.form.firstName = "" ∨ jsTrim s.form.lastName = "") := by
    simp [h1, h2]
  have hn2 : ¬(s.form.selectedAddress = "" ∨ s.addresses = []) := by
    simp [h3, h4]
  have hfind : s.addresses.find? (fun a => a.id == s.form.selectedAddress) = none := by
    rw [List.find?_eq_none]
    intro a ha
    simpa using h5 a ha
  simp only [handlePersonSubmit, if_neg hn1, if_neg hn2, hfind]

/-! ## Concrete sample inputs used by the witnesses -/

def sampleForm : AppFormValues :=
  { postCode := "1345"
    houseNumber := "350"
    firstName := "A"
    lastName := "B"
    selectedAddress := "1" }

def sampleRaw : RawAddressModel :=
  { id := "1", street := "Main", city := "X", postcode := "1345" }

def sampleAddress : Address :=
  { id := "1", street := "Main", houseNumber := "350", city := "X", postcode := "1345" }

def sampleState : AppState :=
  { formInit := initialFormValues
    form := sampleForm
    error := none
    addresses := []
    addressBook := []
    diagnostics := [] }

/-! ## Claim theorems -/

/-- C1: a search submission whose fetch succeeds with N raw records in
`details` yields exactly N transformed Address entries, in the same order as
the raw array, each built by the transformer from its raw record with the
house number supplied at submission time injected. -/
theorem search_success_transforms_in_order (s : AppState) (details : List RawAddressModel)
    (hp : jsTrim s.form.postCode ≠ "") (hh : jsTrim s.form.houseNumber ≠ "") :
    (handleAddressSubmit s (.ok details)).1.addresses.length = details.length
    ∧ (∀ i : Nat,
        (handleAddressSubmit s (.ok details)).1.addresses[i]?
          = (details[i]?).map (fun r => transformAddress r s.form.houseNumber))
    ∧ (∀ a ∈ (handleAddressSubmit s (.ok details)).1.addresses,
        a.houseNumber = s.form.houseNumber) := by
  rw [handleAddressSubmit_ok s details hp hh]
  refine ⟨by simp, fun i => by simp, fun a ha => ?_⟩
  simp only [List.mem_map] at ha
  obtain ⟨r, _, rfl⟩ := ha
  rfl

/-- Witness for C1 at a concrete state and one-record response. -/
theorem search_success_transforms_in_order_witness :
    (handleAddressSubmit sampleState (.ok [sampleRaw])).1.addresses.length = 1
    ∧ (handleAddressSubmit sampleState (.ok [sampleRaw])).1.addresses[0]?
        = some sampleAddress := by
  have h := search_success_transforms_in_order sampleState [sampleRaw]
    (by decide) (by decide)
  refine ⟨h.1, ?_⟩
  rw [h.2.1 0]
  rfl

/-- C3: a search submission whose fetch fails leaves zero result entries
regardless of prior contents, shows exactly the generic message, and sends
the underlying error only to the diagnostic sink. -/
theorem search_failure_clears_and_reports (s : AppState) (m : String)
    (hp : jsTrim s.form.postCode ≠ "") (hh : jsTrim s.form.houseNumber ≠ "") :
    (handleAddressSubmit s (.fail m)).1.addresses = []
    ∧ (handleAddressSubmit s (.fail m)).1.error
        = some "Failed to fetch addresses. Please try again."
    ∧ (handleAddressSubmit s (.fail m)).1.diagnostics = s.diagnostics ++ [m] := by
  rw [handleAddressSubmit_failed s m hp hh]
  exact ⟨rfl, rfl, rfl⟩

/-- Witness for C3 at a concrete state with a non-empty prior result list. -/
theorem search_failure_clears_and_reports_witness :
    (handleAddressSubmit { sampleState with addresses := [sampleAddress] }
        (.fail "boom")).1.addresses = []
    ∧ (handleAddressSubmit { sampleState with addresses := [sampleAddress] }
        (.fail "boom")).1.error = some "Failed to fetch addresses. Please try again."
    ∧ (handleAddressSubmit { sampleState with addresses := [sampleAddress] }
        (.fail "boom")).1.diagnostics = ["boom"] := by
  have h := search_failure_clears_and_reports
    { sampleState with addresses := [sampleAddress] } "boom" (by decide) (by decide)
  exact ⟨h.1, h.2.1, h.2.2⟩

/-- C4: a search submission with a blank (empty after trimming) postcode or
house number issues no network call and sets exactly the mandatory-fields
message. -/
theorem search_blank_fields_no_fetch (s : AppState) (o : FetchOutcome)
    (h : jsTrim s.form.postCode = "" ∨ jsTrim s.form.houseNumber = "") :
    (handleAddressSubmit s o).2 = false
    ∧ (handleAddressSubmit s o).1.error
        = some "Post code and house number are mandatory!" := by
  rw [handleAddressSubmit_invalid s o h]
  exact ⟨rfl, rfl⟩

/-- Witness for C4 at a concrete state with a whitespace-only postcode. -/
theorem search_blank_fields_no_fetch_witness :
    (handleAddressSubmit { sampleState with form := { sampleForm with postCode := "   " } }
        (.ok [sampleRaw])).2 = false
    ∧ (handleAddressSubmit { sampleState with form := { sampleForm with postCode := "   " } }
        (.ok [sampleRaw])).1.error = some "Post code and house number are mandatory!" := by
  have h := search_blank_fields_no_fetch
    { sampleState with form := { sampleForm with postCode := "   " } }
    (.ok [sampleRaw]) (Or.inl (by decide))
  exact h

/-- C9: every search submission clears the result list and the error message
before validation, so after a validation failure the result list is empty and
the only visible error is the mandatory-fields message. -/
theorem search_clears_before_validation (s : AppState) (o : FetchOutcome)
    (h : jsTrim s.form.postCode = "" ∨ jsTrim s.form.houseNumber = "") :
    (handleAddressSubmit s o).1.addresses = []
    ∧ (handleAddressSubmit s o).1.error
        = some "Post code and house number are mandatory!" := by
  rw [handleAddressSubmit_invalid s o h]
  exact ⟨rfl, rfl⟩

/-- Witness for C9 at a concrete state with stale results and a stale error. -/
theorem search_clears_before_validation_witness :
    (handleAddressSubmit
        { sampleState with
            form := { sampleForm with houseNumber := " " },
            addresses := [sampleAddress],
            error := some "old error" }
        (.ok [sampleRaw])).1.addresses = []
    ∧ (handleAddressSubmit
        { sampleState with
            form := { sampleForm with houseNumber := " " },
            addresses := [sampleAddress],
            error := some "old error" }
        (.ok [sampleRaw])).1.error = some "Post code and house number are mandatory!" := by
  have h := search_clears_before_validation
    { sampleState with
        form := { sampleForm with houseNumber := " " },
        addresses := [sampleAddress],
        error := some "old error" }
    (.ok [sampleRaw]) (Or.inr (by decide))
  exact h

/-- C2: person-form validation is fail-fast in the order names, selection,
lookup, with the three exact messages; each failure only replaces the error
message, so no entry is appended to the address-book store. -/
theorem person_submit_fail_fast (s : AppState) :
    (jsTrim s.form.firstName = "" ∨ jsTrim s.form.lastName = "" →
      handlePersonSubmit s
        = { s with error := some "First name and last name fields mandatory!" })
    ∧ (jsTrim s.form.firstName ≠ "" → jsTrim s.form.lastName ≠ "" →
        s.form.selectedAddress = "" ∨ s.addresses = [] →
        handlePersonSubmit s
          = { s with error := some "No address selected, try to select an address or find one if you haven\x27t" })
    ∧ (jsTrim s.form.firstName ≠ "" → jsTrim s.form.lastName ≠ "" →
        s.form.selectedAddress ≠ "" → s.addresses ≠ [] →
        (∀ a ∈ s.addresses, a.id ≠ s.form.selectedAddress) →
        handlePersonSubmit s = { s with error := some "Selected address not found" }) := by
  refine ⟨fun h => ?_, fun h1 h2 h3 => ?_, fun h1 h2 h3 h4 h5 => ?_⟩
  · simp only [handlePersonSubmit, if_pos h]
  · have hn1 : ¬(jsTrim s.form.firstName = "" ∨ jsTrim s.form.lastName = "") := by
      simp [h1, h2]
    simp only [handlePersonSubmit, if_neg hn1, if_pos h3]
  · exact handlePersonSubmit_not_found s h1 h2 h3 h4 h5

/-- Witness for C2: the three failure branches at concrete states. -/
theorem person_submit_fail_fast_witness :
    handlePersonSubmit { sampleState with form := { sampleForm with firstName := " " } }
      = { { sampleState with form := { sampleForm with firstName := " " } } with
            error := some "First name and last name fields mandatory!" }
    ∧ handlePersonSubmit { sampleState with form := { sampleForm with selectedAddress := "" } }
      = { { sampleState with form := { sampleForm with selectedAddress := "" } } with
            error := some "No address selected, try to select an address or find one if you haven\x27t" }
    ∧ handlePersonSubmit
        { sampleState with
            form := { sampleForm with selectedAddress := "zz" },
            addresses := [sampleAddress] }
      = { { sampleState with
              form := { sampleForm with selectedAddress := "zz" },
              addresses := [sampleAddress] } with
            error := some "Selected address not found" } := by
  refine ⟨?_, ?_, ?_⟩
  · exact (person_submit_fail_fast _).1 (Or.inl (by decide))
  · exact (person_submit_fail_fast _).2.1 (by decide) (by decide) (Or.inl rfl)
  · exact (person_submit_fail_fast _).2.2 (by decide) (by decide) (by decide)
      (by decide) (by decide)

/-- C5: a person submission passing all three checks appends exactly one
entry, built from the matched address and the supplied names, to the end of
the address-book store, leaving every other piece of state (prior entries,
form values, results, error) unchanged. -/
theorem person_submit_success_appends (s : AppState) (a : Address)
    (h1 : jsTrim s.form.firstName ≠ "") (h2 : jsTrim s.form.lastName ≠ "")
    (h3 : s.form.selectedAddress ≠ "")
    (hfind : s.addresses.find? (fun x => x.id == s.form.selectedAddress) = some a) :
    handlePersonSubmit s
      = { s with addressBook :=
            addAddress s.addressBook (mkEntry a s.form.firstName s.form.lastName) } := by
  have h4 : s.addresses ≠ [] := by
    intro he
    rw [he] at hfind
    simp at hfind
  have hn1 : ¬(jsTrim s.form.firstName = "" ∨ jsTrim s.form.lastName = "") := by
    simp [h1, h2]
  have hn2 : ¬(s.form.selectedAddress = "" ∨ s.addresses = []) := by
    simp [h3, h4]
  simp only [handlePersonSubmit, if_neg hn1, if_neg hn2, hfind]

/-- Witness for C5 at a concrete state whose selection matches the single
result entry. -/
theorem person_submit_success_appends_witness :
    handlePersonSubmit { sampleState with addresses := [sampleAddress] }
      = { { sampleState with addresses := [sampleAddress] } with
            addressBook := addAddress [] (mkEntry sampleAddress "A" "B") } := by
  exact person_submit_success_appends { sampleState with addresses := [sampleAddress] }
    sampleAddress (by decide) (by decide) (by decide) (by decide)

/-- `handleChange` never touches the initial snapshot captured by `useForm`,
so a fold of changes keeps it intact. -/
theorem foldl_handleChange_initialValues (events : List FormChangeEvent)
    (st : UseFormState (String → FieldValue)) :
    (events.foldl (fun st e => handleChange e st) st).initialValues
      = st.initialValues := by
  induction events generalizing st with
  | nil => rfl
  | cons e es ih => simpa [handleChange] using ih (handleChange e st)

/-- C6: for any initial form values V and any finite sequence of change
events, reset() afterwards restores the mapping to exactly V. -/
theorem reset_restores_initial (V : String → FieldValue)
    (events : List FormChangeEvent) :
    (reset (events.foldl (fun st e => handleChange e st)
        { initialValues := V, values := V })).values = V := by
  have h := foldl_handleChange_initialValues events
    { initialValues := V, values := V }
  simpa [reset] using h

/-- C7: the change operation stores the string value (or the checked flag for
a checkbox-style control) at the named field and leaves every other entry of
the mapping untouched. -/
theorem handleChange_updates_single_field (e : FormChangeEvent)
    (st : UseFormState (String → FieldValue)) :
    ((handleChange e st).values e.name
        = (if e.type = "checkbox" then FieldValue.chk e.checked
            else FieldValue.str e.value))
    ∧ ∀ n : String, n ≠ e.name → (handleChange e st).values n = st.values n := by
  refine ⟨by simp [handleChange, eventValue], fun n hn => by simp [handleChange, hn]⟩

/-- C8: the "Clear all fields" handler resets all form values to the initial
snapshot, empties the result list and clears the error message in its single
update, leaving the address-book store untouched. -/
theorem clear_all_fields_resets (s : AppState) :
    (clearAllFields s).form = s.formInit
    ∧ (clearAllFields s).addresses = []
    ∧ (clearAllFields s).error = none
    ∧ (clearAllFields s).addressBook = s.addressBook := by
  exact ⟨rfl, rfl, rfl, rfl⟩

/-- C10: a search submission leaves every form field value — in particular
the selected address — unchanged, and if the persisted selection matches no
entry of the new result list, the next person submission fails with
"Selected address not found". -/
theorem search_preserves_form_fields (s : AppState) :
    (∀ o : FetchOutcome,
        (handleAddressSubmit s o).1.form = s.form
        ∧ (handleAddressSubmit s o).1.form.selectedAddress = s.form.selectedAddress)
    ∧ (∀ details : List RawAddressModel,
        jsTrim s.form.postCode ≠ "" → jsTrim s.form.houseNumber ≠ "" →
        jsTrim s.form.firstName ≠ "" → jsTrim s.form.lastName ≠ "" →
        s.form.selectedAddress ≠ "" → details ≠ [] →
        (∀ a ∈ (handleAddressSubmit s (.ok details)).1.addresses,
            a.id ≠ s.form.selectedAddress) →
        (handlePersonSubmit (handleAddressSubmit s (.ok details)).1).error
          = some "Selected address not found") := by
  constructor
  · intro o
    have hform : (handleAddressSubmit s o).1.form = s.form := by
      cases o with
      | ok d =>
        simp only [handleAddressSubmit]
        split
        · rfl
        · rfl
      | fail m =>
        simp only [handleAddressSubmit]
        split
        · rfl
        · rfl
    exact ⟨hform, by rw [hform]⟩
  · intro details hp hh hf hl hsel hne hnomatch
    have hstate : (handleAddressSubmit s (.ok details)).1
        = { s with
              addresses := details.map (fun r => transformAddress r s.form.houseNumber),
              error := none } := by
      rw [handleAddressSubmit_ok s details hp hh]
    rw [hstate] at hnomatch ⊢
    rw [handlePersonSubmit_not_found
      { s with
          addresses := details.map (fun r => transformAddress r s.form.houseNumber),
          error := none }
      hf hl hsel (by simpa using hne) hnomatch]

def sampleEvent : FormChangeEvent :=
  { name := "postCode", type := "text", value := "1345", checked := false }

def sampleCheckboxEvent : FormChangeEvent :=
  { name := "subscribed", type := "checkbox", value := "on", checked := true }

def sampleHook : UseFormState (String → FieldValue) :=
  { initialValues := fun _ => .str "", values := fun _ => .str "" }

/-- Witness for C7: a text change and a checkbox change at concrete inputs,
plus the frame property at an untouched field. -/
theorem handleChange_updates_single_field_witness :
    (handleChange sampleEvent sampleHook).values "postCode" = FieldValue.str "1345"
    ∧ (handleChange sampleCheckboxEvent sampleHook).values "subscribed" = FieldValue.chk true
    ∧ (handleChange sampleEvent sampleHook).values "houseNumber"
        = sampleHook.values "houseNumber" := by
  refine ⟨?_, ?_, ?_⟩
  · have h := (handleChange_updates_single_field sampleEvent sampleHook).1
    simpa [sampleEvent] using h
  · have h := (handleChange_updates_single_field sampleCheckboxEvent sampleHook).1
    simpa [sampleCheckboxEvent] using h
  · exact (handleChange_updates_single_field sampleEvent sampleHook).2 "houseNumber"
      (by decide)

/-- A state whose selection refers to an identifier absent from the next
search response. -/
def staleSelectionState : AppState :=
  { sampleState with form := { sampleForm with selectedAddress := "old" } }

/-- Witness for C10: the search keeps the form (hence the stale selection),
and the following person submission reports the missing selection. -/
theorem search_preserves_form_fields_witness :
    (handleAddressSubmit staleSelectionState (.ok [sampleRaw])).1.form
        = staleSelectionState.form
    ∧ (handlePersonSubmit (handleAddressSubmit staleSelectionState (.ok [sampleRaw])).1).error
        = some "Selected address not found" := by
  have h := search_preserves_form_fields staleSelectionState
  exact ⟨(h.1 (.ok [sampleRaw])).1,
    h.2 [sampleRaw] (by decide) (by decide) (by decide) (by decide) (by decide)
      (by decide) (by decide)⟩
